import Mathlib

/-!
Verification of the persistent pipeline & shader cache subsystem of the Dawn
repository (dawn_native): a shallow embedding of
`PersistentCache` (src/dawn_native/PersistentCache.h / .cpp),
`ShaderModule::CreateCacheKey` and `ShaderModule::Compile`
(src/dawn_native/d3d12/ShaderModuleD3D12.cpp), and
`PipelineCache` / `SharedPipelineCaches`
(src/dawn_native/d3d12/PipelineCacheD3D12.h / .cpp), together with theorems
settling the specification's claims about them.

Bytes are modelled as `List Nat` (each element a byte value); machine
pointers, D3D12 handles and the platform `CachingInterface` are modelled
explicitly as data.
-/

namespace DawnCache

/-- A byte string (`std::vector<uint8_t>` / raw buffer contents). -/
abbrev Bytes := List Nat

/-- `PersistentCacheKey = std::vector<uint8_t>` (PersistentCache.h). -/
abbrev PersistentCacheKey := List Nat

/-- The host-provided `dawn_platform::CachingInterface` blob store, modelled as
an association list from keys to blob contents.  `LoadData` returns the blob
for a key or a null blob; `StoreData` inserts an entry. -/
structure CachingInterface where
  entries : List (PersistentCacheKey × Bytes)
deriving DecidableEq

/-- `CachingInterface::LoadData`: the blob stored for `key`, or `none` when the
key is unknown (a null `ScopedCachedBlob`). -/
def ciLoadData (ci : CachingInterface) (key : PersistentCacheKey) : Option Bytes :=
  ci.entries.lookup key

/-- `CachingInterface::StoreData`: puts `value` in the host store under `key`. -/
def ciStoreData (ci : CachingInterface) (key : PersistentCacheKey) (value : Bytes) :
    CachingInterface :=
  ⟨(key, value) :: ci.entries⟩

/-- `dawn_native::PersistentCache`: wraps an optional `CachingInterface`
(`mCache == nullptr` means no persistence is available). -/
structure PersistentCache where
  mCache : Option CachingInterface
deriving DecidableEq

/-- `PersistentCache::LoadData` (PersistentCache.cpp): returns a null blob when
no backing store is configured, otherwise forwards to the interface. -/
def LoadData (pc : PersistentCache) (key : PersistentCacheKey) : Option Bytes :=
  match pc.mCache with
  | none => none
  | some ci => ciLoadData ci key

/-- Result of one `PersistentCache::StoreData` call.  `backingStoreCalled`
records whether `mCache->StoreData` was reached (release-build control flow);
`debugAssertViolated` records whether `ASSERT(value != nullptr)` /
`ASSERT(size > 0)` fails, which halts debug builds before the backing call. -/
structure StoreDataResult where
  cache : PersistentCache
  backingStoreCalled : Bool
  debugAssertViolated : Bool
deriving DecidableEq

/-- `PersistentCache::StoreData` (PersistentCache.cpp): no-op if
`mCache == nullptr`; otherwise asserts the value is non-empty (debug builds
only) and forwards to `mCache->StoreData` unconditionally in release builds.
A null value pointer and a zero size are both modelled as the empty list. -/
def StoreData (pc : PersistentCache) (key : PersistentCacheKey) (value : Bytes) :
    StoreDataResult :=
  match pc.mCache with
  | none => ⟨pc, false, false⟩
  | some ci => ⟨⟨some (ciStoreData ci key value)⟩, true, decide (value = [])⟩

/-- The state transition of `PersistentCache::StoreData` alone (release
semantics, used when composing into `GetOrCreate`). -/
def storeDataCache (pc : PersistentCache) (key : PersistentCacheKey) (value : Bytes) :
    PersistentCache :=
  (StoreData pc key value).cache

/-- Result of one `PersistentCache::GetOrCreate` call: the returned blob, the
resulting cache state, and how many times the creation callback ran. -/
structure GetOrCreateResult where
  blob : Option Bytes
  cache : PersistentCache
  createFnCalls : Nat
deriving DecidableEq

/-- `PersistentCache::GetOrCreate` (PersistentCache.h, lines 48-69).  The
caller-supplied `createFn` is modelled by the list of payloads it passes to its
`doCache` store callback (each of which is `StoreData` bound to `key`); an
empty list models a `createFn` that never calls the callback.  On a load hit
the callback never runs; on a miss it runs exactly once and the blob is
re-loaded afterwards. -/
def GetOrCreate (pc : PersistentCache) (key : PersistentCacheKey)
    (createFnStores : List Bytes) : GetOrCreateResult :=
  match LoadData pc key with
  | some cached => ⟨some cached, pc, 0⟩
  | none =>
      let pc2 := createFnStores.foldl (fun s v => storeDataCache s key v) pc
      ⟨LoadData pc2 key, pc2, 1⟩

/-- `ciStoreData` followed by `ciLoadData` of the same key finds the value. -/
theorem ciLoadData_ciStoreData (ci : CachingInterface) (key : PersistentCacheKey)
    (value : Bytes) : ciLoadData (ciStoreData ci key value) key = some value := by
  simp [ciLoadData, ciStoreData, List.lookup]

/-- **C1.** For every key already present in the backing store,
`PersistentCache::GetOrCreate(key, createFn)` never invokes `createFn`
(zero callback invocations), returns exactly the previously stored bytes, and
leaves the cache unchanged. -/
theorem getOrCreate_hit_skips_create (ci : CachingInterface)
    (key : PersistentCacheKey) (b : Bytes) (createFnStores : List Bytes)
    (hpresent : ciLoadData ci key = some b) :
    (GetOrCreate ⟨some ci⟩ key createFnStores).createFnCalls = 0 ∧
    (GetOrCreate ⟨some ci⟩ key createFnStores).blob = some b ∧
    (GetOrCreate ⟨some ci⟩ key createFnStores).cache = ⟨some ci⟩ := by
  simp [GetOrCreate, LoadData, hpresent]

/-- Witness for C1 at a concrete store: key `[1]` holds `[2]`, and a
`createFn` that would store `[3]` is never consulted. -/
theorem getOrCreate_hit_skips_create_witness :
    (GetOrCreate ⟨some ⟨[([1], [2])]⟩⟩ [1] [[3]]).createFnCalls = 0 ∧
    (GetOrCreate ⟨some ⟨[([1], [2])]⟩⟩ [1] [[3]]).blob = some [2] ∧
    (GetOrCreate ⟨some ⟨[([1], [2])]⟩⟩ [1] [[3]]).cache = ⟨some ⟨[([1], [2])]⟩⟩ :=
  getOrCreate_hit_skips_create ⟨[([1], [2])]⟩ [1] [2] [[3]] (by decide)

/-- **C2.** For a key absent from the (configured) backing store,
`GetOrCreate` invokes `createFn` exactly once and returns what the re-load
finds: when `createFn` passed non-empty bytes `v` to its store callback, the
returned blob and a subsequent independent `LoadData` both yield `v`; when
`createFn` never called the callback, the returned blob is empty and a
subsequent `LoadData` still returns absent. -/
theorem getOrCreate_miss_invokes_create_and_persists (ci : CachingInterface)
    (key : PersistentCacheKey) (v : Bytes)
    (habsent : ciLoadData ci key = none) (hne : v ≠ []) :
    (GetOrCreate ⟨some ci⟩ key [v]).createFnCalls = 1 ∧
    (GetOrCreate ⟨some ci⟩ key [v]).blob = some v ∧
    LoadData (GetOrCreate ⟨some ci⟩ key [v]).cache key = some v ∧
    (GetOrCreate ⟨some ci⟩ key []).createFnCalls = 1 ∧
    (GetOrCreate ⟨some ci⟩ key []).blob = none ∧
    LoadData (GetOrCreate ⟨some ci⟩ key []).cache key = none := by
  refine ⟨?_, ?_, ?_, ?_, ?_, ?_⟩ <;>
    simp [GetOrCreate, LoadData, storeDataCache, StoreData, habsent,
      ciLoadData_ciStoreData]

/-- Witness for C2 on an empty backing store with key `[1]` and payload `[7]`. -/
theorem getOrCreate_miss_invokes_create_and_persists_witness :
    (GetOrCreate ⟨some ⟨[]⟩⟩ [1] [[7]]).createFnCalls = 1 ∧
    (GetOrCreate ⟨some ⟨[]⟩⟩ [1] [[7]]).blob = some [7] ∧
    LoadData (GetOrCreate ⟨some ⟨[]⟩⟩ [1] [[7]]).cache [1] = some [7] ∧
    (GetOrCreate ⟨some ⟨[]⟩⟩ [1] []).createFnCalls = 1 ∧
    (GetOrCreate ⟨some ⟨[]⟩⟩ [1] []).blob = none ∧
    LoadData (GetOrCreate ⟨some ⟨[]⟩⟩ [1] []).cache [1] = none :=
  getOrCreate_miss_invokes_create_and_persists ⟨[]⟩ [1] [7] (by decide) (by decide)

/-- `d3d12::CompiledShader` (ShaderModuleD3D12.h/.cpp): the output of
`ShaderModule::Compile`, holding the blob loaded from the persistent cache (if
any) plus the freshly compiled FXC or DXC blob (if compilation ran).  Blobs are
modelled by their byte contents; a `nullptr` member is `none`. -/
structure CompiledShader where
  cachedBlob : Option Bytes
  compiledFXCShader : Option Bytes
  compiledDXCShader : Option Bytes
deriving DecidableEq

/-- `CompiledShader::GetD3D12ShaderBytecode` (ShaderModuleD3D12.cpp, lines
365-375): prefers the cached blob, then the FXC output, then the DXC output
(`UNREACHABLE` — modelled as `none` — when all three are null). -/
def GetD3D12ShaderBytecode (cs : CompiledShader) : Option Bytes :=
  match cs.cachedBlob with
  | some b => some b
  | none =>
      match cs.compiledFXCShader with
      | some f => some f
      | none => cs.compiledDXCShader

/-- The store-callback fold leaves a cache with no backing interface unchanged. -/
theorem foldl_storeDataCache_none (key : PersistentCacheKey)
    (createFnStores : List Bytes) :
    createFnStores.foldl (fun s v => storeDataCache s key v)
      (⟨none⟩ : PersistentCache) = ⟨none⟩ := by
  induction createFnStores with
  | nil => rfl
  | cons v rest ih => simpa [storeDataCache, StoreData] using ih

/-- **C10.** With no `CachingInterface` configured, `GetOrCreate` returns a
null blob on every call — even when `createFn` ran and invoked its store
callback with non-empty bytes — and `GetD3D12ShaderBytecode` returns the
cached blob's bytes when that blob is non-null, otherwise falling back to the
freshly compiled FXC, then DXC, output. -/
theorem no_caching_interface_getOrCreate_null_blob
    (key : PersistentCacheKey) (createFnStores : List Bytes)
    (b f d : Bytes) (fxc dxc : Option Bytes) :
    (GetOrCreate ⟨none⟩ key createFnStores).blob = none ∧
    (GetOrCreate ⟨none⟩ key createFnStores).createFnCalls = 1 ∧
    GetD3D12ShaderBytecode ⟨some b, fxc, dxc⟩ = some b ∧
    GetD3D12ShaderBytecode ⟨none, some f, dxc⟩ = some f ∧
    GetD3D12ShaderBytecode ⟨none, none, some d⟩ = some d := by
  refine ⟨?_, ?_, rfl, rfl, rfl⟩ <;>
    simp [GetOrCreate, LoadData, foldl_storeDataCache_none]

/-- ASCII byte of one digit, as produced by `std::ostream` for integers:
`'0'..'9'` then lowercase `'a'..'f'`. -/
def digitByte (n : Nat) : Nat :=
  if n < 10 then 48 + n else 87 + n

/-- Big-endian digit bytes of `n` in the given base, with explicit fuel
(structural recursion; the fuel `n + 1` always suffices). -/
def digitsAux (base : Nat) : Nat → Nat → List Nat
  | 0, _ => []
  | fuel + 1, n =>
      if n < base then [digitByte n]
      else digitsAux base fuel (n / base) ++ [digitByte (n % base)]

/-- The ASCII bytes `std::ostream` writes for an unsigned integer `n` in the
given base (no padding, lowercase hex digits). -/
def digitsBytes (base n : Nat) : List Nat :=
  digitsAux base (n + 1) n

/-- Hex rendering of one SPIR-V word, as produced by `stream << std::hex << w`. -/
def hexBytes (n : Nat) : List Nat := digitsBytes 16 n

/-- Decimal rendering, as produced by `stream << n` with default flags. -/
def decBytes (n : Nat) : List Nat := digitsBytes 10 n

/-- `d3d12::ShaderModule::CreateCacheKey` (ShaderModuleD3D12.cpp, lines
377-394).  The module's WGSL text and entry-point name are byte strings; the
SPIR-V words are `uint32_t` values.  The stream receives: the WGSL source,
each SPIR-V word under `std::hex`, the stage cast to `uint32_t`, and the
entry-point name.  `std::hex` is sticky, so the stage is rendered in hex
whenever at least one SPIR-V word was written and in decimal otherwise. -/
def CreateCacheKey (wgsl : Bytes) (spirv : List Nat) (stage : Nat)
    (entryPointName : Bytes) : PersistentCacheKey :=
  wgsl ++ (spirv.map hexBytes).flatten ++
    (if spirv.isEmpty then decBytes stage else hexBytes stage) ++ entryPointName

/-- The 4 little-endian bytes of a `uint32` value. -/
def uint32le (n : Nat) : List Nat :=
  [n % 256, n / 256 % 256, n / 2 ^ 16 % 256, n / 2 ^ 24 % 256]

/-- The shader cache key as the specification words it (for comparison with
`CreateCacheKey`): `UTF8(sourceText) || hex(moduleBinaryWords...) ||
uint32_le(stageEnumValue) || UTF8(entryPointName)`. -/
def specShaderCacheKey (wgsl : Bytes) (spirv : List Nat) (stage : Nat)
    (entryPointName : Bytes) : PersistentCacheKey :=
  wgsl ++ (spirv.map hexBytes).flatten ++ uint32le stage ++ entryPointName

/-- **C3 counterexample.** At WGSL source `"a"`, no SPIR-V words, stage 0 and
entry point `"b"`, the key the code computes (`"a" ++ "0" ++ "b"`, the stage
as an ASCII numeral) differs from the spec's byte layout, which embeds the
stage as four little-endian bytes. -/
theorem createCacheKey_ne_spec_layout :
    CreateCacheKey [97] [] 0 [98] ≠ specShaderCacheKey [97] [] 0 [98] := by
  decide

/-- A single-digit value renders as one ASCII byte in both bases used. -/
theorem digitsBytes_single (stage : Nat) (h : stage < 10) :
    decBytes stage = [48 + stage] ∧ hexBytes stage = [48 + stage] := by
  have h16 : stage < 16 := by omega
  constructor <;> simp [decBytes, hexBytes, digitsBytes, digitsAux, digitByte, h, h16]

/-- Decomposition of `CreateCacheKey` for in-range stage values: the stage
contributes exactly the single ASCII digit `'0' + stage`. -/
theorem createCacheKey_decomp (wgsl : Bytes) (spirv : List Nat) (stage : Nat)
    (entryPointName : Bytes) (h : stage < 10) :
    CreateCacheKey wgsl spirv stage entryPointName =
      wgsl ++ (spirv.map hexBytes).flatten ++ [48 + stage] ++ entryPointName := by
  have hd := digitsBytes_single stage h
  unfold CreateCacheKey
  rcases spirv with _ | ⟨w, ws⟩ <;> simp [hd.1, hd.2]

/-- **C3 (amended).** The shader cache key is the byte concatenation
`UTF8(sourceText) || hex(moduleBinaryWords...) || asciiNumeral(stageEnumValue)
|| UTF8(entryPointName)` in that fixed order, where the stage is written as
its ASCII numeral by stream insertion (a single digit `'0' + stage` for every
in-range `SingleShaderStage` value), not as four little-endian bytes. -/
theorem createCacheKey_concatenation_order (wgsl : Bytes) (spirv : List Nat)
    (stage : Nat) (entryPointName : Bytes) (h : stage < 10) :
    CreateCacheKey wgsl spirv stage entryPointName =
      wgsl ++ (spirv.map hexBytes).flatten ++ [48 + stage] ++ entryPointName :=
  createCacheKey_decomp wgsl spirv stage entryPointName h

/-- Witness for the amended C3 at source `"a"`, SPIR-V `[0x2a]`, stage 1
(Fragment), entry point `"main"` (`[109,97,105,110]`). -/
theorem createCacheKey_concatenation_order_witness :
    CreateCacheKey [97] [42] 1 [109, 97, 105, 110] =
      [97] ++ ([42].map hexBytes).flatten ++ [48 + 1] ++ [109, 97, 105, 110] :=
  createCacheKey_concatenation_order [97] [42] 1 [109, 97, 105, 110] (by decide)

/-- **C4 counterexample.** Two inputs that differ in source — WGSL `"ab"` with
no SPIR-V words versus WGSL `"a"` with the single word `0xb` — share stage 0
and an empty entry-point name yet produce byte-identical keys (the fields are
concatenated with no delimiter, so the boundary between them is ambiguous). -/
theorem createCacheKey_source_collision :
    ([97, 98], ([] : List Nat)) ≠ (([97] : Bytes), [11]) ∧
    CreateCacheKey [97, 98] [] 0 [] = CreateCacheKey [97] [11] 0 [] := by
  decide

/-- **C4 (amended).** `CreateCacheKey` separates entry points and stages:
with source (WGSL text and SPIR-V words) fixed, distinct entry-point names
give distinct keys, and distinct in-range stage values give distinct keys.
Inputs that differ only in source may collide (the un-delimited concatenation
is ambiguous across the source fields). -/
theorem createCacheKey_entry_stage_distinct (wgsl : Bytes) (spirv : List Nat)
    (stage s1 s2 : Nat) (e e1 e2 : Bytes)
    (hs1 : s1 < 10) (hs2 : s2 < 10) (hstage : stage < 10) :
    (e1 ≠ e2 → CreateCacheKey wgsl spirv stage e1 ≠ CreateCacheKey wgsl spirv stage e2) ∧
    (s1 ≠ s2 → CreateCacheKey wgsl spirv s1 e ≠ CreateCacheKey wgsl spirv s2 e) := by
  constructor
  · intro hne heq
    rw [createCacheKey_decomp wgsl spirv stage e1 hstage,
      createCacheKey_decomp wgsl spirv stage e2 hstage] at heq
    simp only [List.append_assoc, List.append_cancel_left_eq] at heq
    exact hne heq
  · intro hne heq
    rw [createCacheKey_decomp wgsl spirv s1 e hs1,
      createCacheKey_decomp wgsl spirv s2 e hs2] at heq
    simp only [List.append_assoc, List.append_cancel_left_eq,
      List.cons_append, List.cons.injEq] at heq
    omega

/-- Witness for the amended C4: same source, entry points `"f"` vs `"g"`
differ, and stages 0 vs 2 differ. -/
theorem createCacheKey_entry_stage_distinct_witness :
    CreateCacheKey [97] [42] 1 [102] ≠ CreateCacheKey [97] [42] 1 [103] ∧
    CreateCacheKey [97] [42] 0 [102] ≠ CreateCacheKey [97] [42] 2 [102] :=
  ⟨(createCacheKey_entry_stage_distinct [97] [42] 1 0 2 [102] [102] [103]
      (by decide) (by decide) (by decide)).1 (by decide),
   (createCacheKey_entry_stage_distinct [97] [42] 1 0 2 [102] [102] [103]
      (by decide) (by decide) (by decide)).2 (by decide)⟩

/-- The cache-control booleans computed by `d3d12::ShaderModule::Compile`
(ShaderModuleD3D12.cpp, lines 305-363): `doCacheShaders` after the call, and
the `useCachedPipeline` output flag. -/
structure CompileCacheFlags where
  doCacheShaders : Bool
  useCachedPipeline : Bool
deriving DecidableEq

/-- The boolean dataflow of `ShaderModule::Compile`:
`doCacheShaders` starts as the negation of the `DisableD3D12ShaderCaching`
toggle; on a shader-cache hit the creation lambda never runs and it keeps that
value; on a miss the lambda runs and, when `doCacheShaders` was set, it is
reassigned to the result of `doCache(bytecode)` (`storeAccepted`: whether the
freshly compiled bytecode was accepted into the persistent cache).  Finally
`*useCachedPipeline = doCacheShaders || (compileFlags & D3DCOMPILE_DEBUG) == 0`
(line 360). -/
def compileCacheFlags (toggleDisableShaderCaching cacheHit storeAccepted
    debugFlag : Bool) : CompileCacheFlags :=
  let initial := !toggleDisableShaderCaching
  let final := if cacheHit then initial else (initial && storeAccepted)
  ⟨final, final || !debugFlag⟩

/-- The `usePipelineCache` boolean as the claim words it: true unless the
compile regenerated bytecode (no cache hit) and debug instrumentation is
active (for comparison with the value the code computes). -/
def claimedUsePipelineCache (cacheHit debugFlag : Bool) : Bool :=
  cacheHit || !debugFlag

/-- State of the 2020-variant `d3d12::PipelineCache`
(PipelineCacheD3D12.h, lines 178-242): whether `mLibrary` is non-null and the
set of names (`descHash` renderings) already stored in the native library. -/
structure PipelineLibraryState where
  hasLibrary : Bool
  storedNames : List Nat
deriving DecidableEq

/-- Observable outcome of one 2020-variant `PipelineCache::GetOrCreate` call:
the returned pipeline-state object (identified by its `descHash`), whether the
native library was queried (`Load*Pipeline`), whether it was written
(`StorePipeline`), whether `Create*PipelineState` ran, and the state after. -/
structure PipelineGetOrCreateResult where
  pso : Option Nat
  libraryLoadAttempted : Bool
  libraryStoreAttempted : Bool
  createdFresh : Bool
  state : PipelineLibraryState
deriving DecidableEq

/-- 2020-variant `PipelineCache::GetOrCreate(desc, descHash, doCache)`
(PipelineCacheD3D12.h, lines 189-212): both the library lookup and the library
store are guarded by `mLibrary != nullptr && doCache`; otherwise the
pipeline-state object is created directly. -/
def pipelineGetOrCreate (st : PipelineLibraryState) (descHash : Nat)
    (doCache : Bool) : PipelineGetOrCreateResult :=
  if st.hasLibrary && doCache then
    if descHash ∈ st.storedNames then
      ⟨some descHash, true, false, false, st⟩
    else
      ⟨some descHash, true, true, true,
        ⟨st.hasLibrary, descHash :: st.storedNames⟩⟩
  else
    ⟨some descHash, false, false, true, st⟩

/-- **C5 counterexample.** With shader caching enabled (toggle off), a cache
miss (regenerated bytecode), a successful store of the regenerated bytecode,
and the `D3DCOMPILE_DEBUG` flag set, the code computes
`useCachedPipeline = true`, whereas the claim's formula ("true unless that
compile regenerated bytecode AND debug instrumentation is active") requires
`false`. -/
theorem usePipelineCache_ne_claimed_formula :
    (compileCacheFlags false false true true).useCachedPipeline = true ∧
    claimedUsePipelineCache false true = false := by
  decide

/-- **C5 (amended).** `useCachedPipeline` is false exactly when debug
instrumentation is active and the compile did not obtain cache-backed bytecode
(shader caching disabled by toggle, or a miss whose freshly compiled bytecode
was not accepted into the shader cache); a cache hit or an accepted store
keeps it true even under debug.  Whenever it is false, the 2020-variant
`PipelineCache::GetOrCreate` neither queries nor writes the native pipeline
library: it creates the pipeline-state object directly and leaves the library
state unchanged. -/
theorem usePipelineCache_false_bypasses_library
    (toggle cacheHit storeAccepted debugFlag : Bool)
    (st : PipelineLibraryState) (descHash : Nat) :
    ((compileCacheFlags toggle cacheHit storeAccepted debugFlag).useCachedPipeline
        = false ↔
      (debugFlag = true ∧
        (toggle = true ∨ (cacheHit = false ∧ storeAccepted = false)))) ∧
    ((compileCacheFlags toggle cacheHit storeAccepted debugFlag).useCachedPipeline
        = false →
      pipelineGetOrCreate st descHash
          (compileCacheFlags toggle cacheHit storeAccepted debugFlag).useCachedPipeline =
        ⟨some descHash, false, false, true, st⟩) := by
  constructor
  · cases toggle <;> cases cacheHit <;> cases storeAccepted <;> cases debugFlag <;>
      simp [compileCacheFlags]
  · intro hfalse
    rw [hfalse]
    simp [pipelineGetOrCreate]

/-- Witness for the amended C5: shader caching disabled by toggle under debug
gives `useCachedPipeline = false`, and `GetOrCreate` then bypasses a library
that holds entry `5`. -/
theorem usePipelineCache_false_bypasses_library_witness :
    ((compileCacheFlags true false false true).useCachedPipeline = false ↔
      (true = true ∧ (true = true ∨ (false = false ∧ false = false)))) ∧
    pipelineGetOrCreate ⟨true, [5]⟩ 7
        (compileCacheFlags true false false true).useCachedPipeline =
      ⟨some 7, false, false, true, ⟨true, [5]⟩⟩ :=
  ⟨(usePipelineCache_false_bypasses_library true false false true ⟨true, [5]⟩ 7).1,
   (usePipelineCache_false_bypasses_library true false false true ⟨true, [5]⟩ 7).2
     (by decide)⟩

/-- State of the 2021-variant `d3d12::PipelineCache`
(PipelineCacheD3D12.h, lines 33-123): `mLibrary` nullness, the names stored in
the native library, `mHitCountForTesting`, `mIsLibraryBlobDirty`, and whether
`mSharedPipelineCaches` is still non-null (connected to the adapter's shared
registry). -/
structure PipelineCacheState where
  hasLibrary : Bool
  storedNames : List Nat
  hitCount : Nat
  isLibraryBlobDirty : Bool
  connected : Bool
deriving DecidableEq

/-- The pass-through `PipelineCache` built by `new PipelineCache()` — the
default constructor used by `SharedPipelineCaches::GetOrCreate` when
`supportsPipelineCaching` is false (PipelineCacheD3D12.cpp, lines 70-76):
no native library, nothing stored, zero hit count, not dirty, and not
connected to the shared registry. -/
def passthroughPipelineCache : PipelineCacheState :=
  ⟨false, [], 0, false, false⟩

/-- Observable outcome of one 2021-variant `PipelineCache::GetOrCreate` call. -/
structure CacheGetOrCreateResult where
  pso : Option Nat
  libraryLoadAttempted : Bool
  libraryStoreAttempted : Bool
  createdFresh : Bool
  state : PipelineCacheState
deriving DecidableEq

/-- 2021-variant `PipelineCache::GetOrCreate(desc, descHash)`
(PipelineCacheD3D12.h, lines 47-67): when `mLibrary != nullptr`, try
`LoadPipeline` under the textual `descHash` name, bump the hit counter on a
hit; otherwise `CreatePipeline` and, when `mLibrary != nullptr`, store the
new object back and set `mIsLibraryBlobDirty`. -/
def cacheGetOrCreate (st : PipelineCacheState) (descHash : Nat) :
    CacheGetOrCreateResult :=
  if st.hasLibrary then
    if descHash ∈ st.storedNames then
      ⟨some descHash, true, false, false,
        ⟨st.hasLibrary, st.storedNames, st.hitCount + 1, st.isLibraryBlobDirty,
          st.connected⟩⟩
    else
      ⟨some descHash, true, true, true,
        ⟨st.hasLibrary, descHash :: st.storedNames, st.hitCount, true,
          st.connected⟩⟩
  else
    ⟨some descHash, false, false, true, st⟩

/-- Outcome of one `PipelineCache::StorePipelineCacheData(persistentCache)`
flush: whether the serialized library reached
`SharedPipelineCaches::StorePipelineCacheData` → `PersistentCache::StoreData`,
under which key, and the state after. -/
structure FlushResult where
  storedKey : Option PersistentCacheKey
  state : PipelineCacheState
deriving DecidableEq

/-- `PipelineCache::StorePipelineCacheData` (PipelineCacheD3D12.cpp, lines
180-215): return early when disconnected from the shared registry, when
`mIsLibraryBlobDirty` is unset, in `_DEBUG` builds (dirty entries are never
persisted there), or when `ID3D12PipelineLibrary::Serialize` fails; otherwise
store the serialized bytes under the adapter's pipeline-cache key and clear
the dirty flag. -/
def storePipelineCacheData (debugBuild serializeOk : Bool)
    (adapterKey : PersistentCacheKey) (st : PipelineCacheState) : FlushResult :=
  if !st.connected then ⟨none, st⟩
  else if !st.isLibraryBlobDirty then ⟨none, st⟩
  else if debugBuild then ⟨none, st⟩
  else if !serializeOk then ⟨none, st⟩
  else
    ⟨some adapterKey,
      ⟨st.hasLibrary, st.storedNames, st.hitCount, false, st.connected⟩⟩

/-- **C8.** When the driver lacks pipeline-library support,
`SharedPipelineCaches::GetOrCreate` hands out the default-constructed
pass-through cache: every `GetOrCreate` call creates the pipeline-state object
via the real creation path, performs neither a library load nor a library
store, leaves the state unchanged (so the mode is permanent and the hit count
stays flat), still returns a valid pipeline-state object, and a flush never
persists anything. -/
theorem passthrough_mode_never_touches_library (descHash : Nat)
    (debugBuild serializeOk : Bool) (adapterKey : PersistentCacheKey) :
    cacheGetOrCreate passthroughPipelineCache descHash =
      ⟨some descHash, false, false, true, passthroughPipelineCache⟩ ∧
    storePipelineCacheData debugBuild serializeOk adapterKey
        passthroughPipelineCache = ⟨none, passthroughPipelineCache⟩ := by
  constructor
  · simp [cacheGetOrCreate, passthroughPipelineCache]
  · simp [storePipelineCacheData, passthroughPipelineCache]

/-- **C9 counterexample.** In a debug build, a connected cache whose dirty
flag is set is flushed without any store and without clearing the flag,
contradicting "when the flag is set it serializes the library, writes the
serialized bytes through `PersistentCache::StoreData` ... and clears the
dirty flag". -/
theorem flush_dirty_no_store_in_debug :
    (storePipelineCacheData true true [3] ⟨true, [5], 0, true, true⟩).storedKey
        = none ∧
    (storePipelineCacheData true true [3]
        ⟨true, [5], 0, true, true⟩).state.isLibraryBlobDirty = true := by
  decide

/-- **C9 (amended).** `StorePipelineCacheData` is a no-op whenever the dirty
flag is unset; when the flag is set it stores the serialized library through
`PersistentCache::StoreData` under the adapter-derived key and clears the flag
only in non-debug builds, for caches still connected to the shared registry,
and when serialization succeeds (otherwise it performs no store); in every
case an immediately repeated flush with no intervening library mutation
performs no store. -/
theorem flush_idempotent_and_dirty_tracking (debugBuild serializeOk : Bool)
    (adapterKey : PersistentCacheKey) (st : PipelineCacheState) :
    (st.isLibraryBlobDirty = false →
      storePipelineCacheData debugBuild serializeOk adapterKey st = ⟨none, st⟩) ∧
    (st.connected = true → st.isLibraryBlobDirty = true → debugBuild = false →
      serializeOk = true →
      (storePipelineCacheData debugBuild serializeOk adapterKey st).storedKey
          = some adapterKey ∧
      (storePipelineCacheData debugBuild serializeOk adapterKey
          st).state.isLibraryBlobDirty = false) ∧
    (storePipelineCacheData debugBuild serializeOk adapterKey
        (storePipelineCacheData debugBuild serializeOk adapterKey
          st).state).storedKey = none := by
  refine ⟨fun h => ?_, fun hc hd hdbg hser => ?_, ?_⟩
  · simp [storePipelineCacheData, h]
  · simp [storePipelineCacheData, hc, hd, hdbg, hser]
  · by_cases hc : st.connected <;>
      by_cases hd : st.isLibraryBlobDirty <;>
        cases debugBuild <;> cases serializeOk <;>
          simp [storePipelineCacheData, hc, hd]

/-- Witness for the amended C9: a clean cache flushes as a no-op, and a dirty
connected cache in a release build stores under the adapter key `[3]` and
comes back clean. -/
theorem flush_idempotent_and_dirty_tracking_witness :
    storePipelineCacheData false true [3] ⟨true, [5], 0, false, true⟩ =
      ⟨none, ⟨true, [5], 0, false, true⟩⟩ ∧
    (storePipelineCacheData false true [3] ⟨true, [5], 0, true, true⟩).storedKey
        = some [3] ∧
    (storePipelineCacheData false true [3]
        ⟨true, [5], 0, true, true⟩).state.isLibraryBlobDirty = false :=
  ⟨(flush_idempotent_and_dirty_tracking false true [3]
      ⟨true, [5], 0, false, true⟩).1 rfl,
   (flush_idempotent_and_dirty_tracking false true [3]
      ⟨true, [5], 0, true, true⟩).2.1 rfl rfl rfl rfl⟩

/-- **C7 (code evaluated at the failing input).** `PersistentCache::StoreData`
with a configured backing store and a zero-length (or null) value: the debug
assertions `ASSERT(value != nullptr)` / `ASSERT(size > 0)` fire, but in a
release build they compile out and the call reaches
`mCache->StoreData(..., value, 0)` — a zero-length entry is passed to the
backing `CachingInterface` (the repository's own
`SharedPipelineCaches::GetOrCreate` invokes `doCache(nullptr, 0)`, hitting
exactly this path).  Only the unconfigured cache no-ops. -/
theorem storeData_zero_length_reaches_backing_store :
    (StoreData ⟨some ⟨[]⟩⟩ [1] []).backingStoreCalled = true ∧
    (StoreData ⟨some ⟨[]⟩⟩ [1] []).debugAssertViolated = true ∧
    StoreData ⟨none⟩ [1] [] = ⟨⟨none⟩, false, false⟩ := by
  decide

/-- A `ScopedCachedBlob` seed as seen by the shared registry: the
`CachedData*` pointer identity and the blob's byte content. -/
structure BlobRef where
  ptr : Nat
  content : Bytes
deriving DecidableEq

/-- `PipelineCache::HashFunc` (PipelineCacheD3D12.cpp, lines 217-221):
`HashCombine(&hash, entry->mLibraryBlob.Get())` hashes the blob's
`CachedData*` pointer.  `HashCombine` is modelled as injective on pointers. -/
def pipelineCacheHashFunc (b : BlobRef) : Nat := b.ptr

/-- Modelled from the spec: `PipelineCache::EqualityFunc` compares
`a->mLibraryBlob == b->mLibraryBlob`, and `ScopedCachedBlob::operator==` is
only declared in this snapshot (DawnPlatform.h) with no definition present;
the spec prescribes "comparing seed blobs byte-for-byte, not pointer
identity". -/
def pipelineCacheEqualityFunc (a b : BlobRef) : Bool :=
  a.content == b.content

/-- The blueprint search `mCache.find(&blueprint)` in
`SharedPipelineCaches::GetOrCreate` (PipelineCacheD3D12.cpp, lines 87-91): an
`unordered_set` only tests `EqualityFunc` against entries in the bucket
selected by `HashFunc`, so a candidate must match both the hash of the
blueprint's blob pointer and the equality predicate. -/
def registryFind (reg : List BlobRef) (blueprint : BlobRef) : Option BlobRef :=
  reg.find? fun y =>
    pipelineCacheHashFunc y == pipelineCacheHashFunc blueprint &&
      pipelineCacheEqualityFunc y blueprint

/-- The registry mutation of `SharedPipelineCaches::GetOrCreate`: reuse a
found entry, otherwise register a new cache built from the blueprint's seed
blob (`mCache.insert`). -/
def registryGetOrCreate (reg : List BlobRef) (blueprint : BlobRef) :
    List BlobRef :=
  match registryFind reg blueprint with
  | some _ => reg
  | none => blueprint :: reg

/-- No two registry entries share both their seed-blob pointer and content. -/
def AtMostOnePerSeedRef (reg : List BlobRef) : Prop :=
  reg.Pairwise fun x y => ¬(x.ptr = y.ptr ∧ x.content = y.content)

/-- **C6 counterexample.** Registry entry with seed blob pointer 1 and bytes
`[5]`; a blueprint holding byte-identical content `[5]` behind a different
pointer 2.  The blueprint search misses (lookup depends on the pointer-based
`HashFunc`, not on content alone) and `GetOrCreate` registers a second live
entry whose seed blob is byte-for-byte equal to the existing one. -/
theorem registry_lookup_pointer_dependent :
    pipelineCacheEqualityFunc ⟨1, [5]⟩ ⟨2, [5]⟩ = true ∧
    registryFind [⟨1, [5]⟩] ⟨2, [5]⟩ = none ∧
    registryGetOrCreate [⟨1, [5]⟩] ⟨2, [5]⟩ = [⟨2, [5]⟩, ⟨1, [5]⟩] := by
  decide

/-- **C6 (amended).** The registry maintains at most one live entry per
distinct seed-blob *reference* (pointer and byte content together), and the
blueprint search only ever returns an entry whose seed blob agrees with the
blueprint's both in pointer hash and in byte content: lookup is bucketed by
the pointer-based `HashFunc` before the (spec-modelled) byte-for-byte
`EqualityFunc` applies, so entries with byte-equal but pointer-distinct seed
blobs can coexist. -/
theorem registry_at_most_one_per_seed_ref (reg : List BlobRef)
    (blueprint : BlobRef) (h : AtMostOnePerSeedRef reg) :
    AtMostOnePerSeedRef (registryGetOrCreate reg blueprint) ∧
    ∀ y, registryFind reg blueprint = some y →
      y.ptr = blueprint.ptr ∧ y.content = blueprint.content := by
  constructor
  · unfold registryGetOrCreate
    cases hfind : registryFind reg blueprint with
    | some y => exact h
    | none =>
      refine List.Pairwise.cons (fun y hy hcontra => ?_) h
      have hnot := List.find?_eq_none.mp hfind y hy
      apply hnot
      simp [pipelineCacheHashFunc, pipelineCacheEqualityFunc, hcontra.1,
        hcontra.2]
  · intro y hfind
    have hp := List.find?_some hfind
    simpa [pipelineCacheHashFunc, pipelineCacheEqualityFunc] using hp

/-- Witness for the amended C6 on a two-entry registry and a blueprint
matching the first entry exactly. -/
theorem registry_at_most_one_per_seed_ref_witness :
    AtMostOnePerSeedRef (registryGetOrCreate [⟨1, [5]⟩, ⟨2, [6]⟩] ⟨1, [5]⟩) ∧
    ∀ y, registryFind [⟨1, [5]⟩, ⟨2, [6]⟩] ⟨1, [5]⟩ = some y →
      y.ptr = (⟨1, [5]⟩ : BlobRef).ptr ∧
        y.content = (⟨1, [5]⟩ : BlobRef).content :=
  registry_at_most_one_per_seed_ref [⟨1, [5]⟩, ⟨2, [6]⟩] ⟨1, [5]⟩
    (by simp [AtMostOnePerSeedRef])

end DawnCache
